import Mathlib

/-!
Verification development for the talos procurement system.

The definitions below are a shallow embedding of the Python source:
- the approver chain resolver (workflows/procurement_workflows.py,
  activity determine_approvers);
- the human gate policy (agents/core/base_agent.py,
  ProcurementAgent._requires_human_review, and the override in
  agents/implementations/price_agents.py, PriceWatchAgent);
- the agent decision loop (base_agent.py, _build_graph / _should_continue);
- the durable requisition approval workflow
  (RequisitionApprovalWorkflow.run) and the invoice validation workflow
  (InvoiceValidationWorkflow.run).

Monetary amounts (Python floats holding currency values) are modelled as
rationals. Workflow time is modelled in minutes as a natural number;
activities are instantaneous and time advances only at workflow.sleep,
matching the deterministic workflow-time semantics. Activity results are
supplied by an explicit environment, since the activity bodies in the
repository are placeholders; check_approval_status results are an oracle
stream indexed by invocation count. Traces record every activity
invocation and every sleep, so that notification, escalation and grace
behaviour can be stated.
-/

namespace Talos

/-! ## Tool calls and the human gate policy -/
/-- A JSON-ish argument value inside a tool call argument record. -/
inductive ArgVal where
  | num (q : ℚ)
  | str (s : String)
  deriving DecidableEq, Repr

/-- A proposed tool call: a name and a string-keyed argument record,
as produced by the language model and inspected by the gate. -/
structure ToolCall where
  name : String
  args : List (String × ArgVal)
  deriving DecidableEq, Repr

/-- Dictionary lookup in the argument record (Python dict access). -/
def ToolCall.getArg (tc : ToolCall) (k : String) : Option ArgVal :=
  (tc.args.find? (fun p => p.1 = k)).map (fun p => p.2)

/-- Embedding of ProcurementAgent._requires_human_review (base_agent.py):
return False when the configured threshold is nonpositive; otherwise gate
iff the argument record carries an "amount" exceeding the threshold.
A non-numeric "amount" would raise a TypeError at the comparison in
Python; no claim exercises that case and it is modelled as not gating. -/
def base_requires_human_review (threshold : ℚ) (tc : ToolCall) : Bool :=
  if threshold ≤ 0 then false
  else
    match tc.getArg "amount" with
    | some (ArgVal.num a) => decide (threshold < a)
    | _ => false

/-- Embedding of PriceWatchAgent._requires_human_review (price_agents.py):
gate iff the call is send_slack_alert with level equal to "critical"
(the level defaults to "info" when absent; a non-string level compares
unequal to "critical" in Python). The configured threshold is ignored. -/
def priceWatch_requires_human_review (tc : ToolCall) : Bool :=
  if tc.name = "send_slack_alert" then
    match tc.getArg "level" with
    | some (ArgVal.str s) => decide (s = "critical")
    | _ => false
  else false

/-- The threshold configured for PriceWatchAgent
(AgentConfig human_in_loop_threshold equal to 0 in price_agents.py). -/
def priceWatchThreshold : ℚ := 0

/-- The agent classes whose review policy differs: the base class default
and the PriceWatchAgent override. -/
inductive AgentKind where
  | base
  | priceWatch
  deriving DecidableEq, Repr

/-- The human gate evaluation dispatched per agent class: the base class
consults the configured threshold, PriceWatchAgent uses its override. -/
def requires_human_review : AgentKind → ℚ → ToolCall → Bool
  | AgentKind.base, th, tc => base_requires_human_review th tc
  | AgentKind.priceWatch, _, tc => priceWatch_requires_human_review tc

/-! ## Approver chain resolver -/
/-- One entry of the approver chain produced by determine_approvers. -/
structure Approver where
  level : ℕ
  role : String
  approver_id : String
  approver_email : String
  deriving DecidableEq, Repr

def managerApprover : Approver :=
  ⟨1, "manager", "manager_001", "manager@university.edu"⟩

def directorApprover : Approver :=
  ⟨2, "director", "director_001", "director@university.edu"⟩

def vpApprover : Approver :=
  ⟨3, "vp", "vp_001", "vp@university.edu"⟩

def cfoApprover : Approver :=
  ⟨4, "cfo", "cfo_001", "cfo@university.edu"⟩

/-- The full escalation ladder, in tier order. -/
def fullLadder : List Approver :=
  [managerApprover, directorApprover, vpApprover, cfoApprover]

/-- Embedding of the determine_approvers activity
(procurement_workflows.py): append each tier whose threshold the total
exceeds, in ladder order. -/
def determine_approvers (total : ℚ) : List Approver :=
  (if 500 < total then [managerApprover] else []) ++
  (if 5000 < total then [directorApprover] else []) ++
  (if 25000 < total then [vpApprover] else []) ++
  (if 100000 < total then [cfoApprover] else [])

/-- Number of tiers the resolver yields for a given total. -/
def tierCount (total : ℚ) : ℕ :=
  if 100000 < total then 4
  else if 25000 < total then 3
  else if 5000 < total then 2
  else if 500 < total then 1
  else 0

/-! ## C2: gate behaviour at nonpositive thresholds -/
/-- A critical slack alert tool call. -/
def criticalAlertCall : ToolCall :=
  ⟨"send_slack_alert",
   [("channel", ArgVal.str "procurement"),
    ("message", ArgVal.str "contract violation"),
    ("level", ArgVal.str "critical")]⟩

/-! ## Decision loop (base_agent.py, _build_graph and _should_continue) -/
/-- The configuration fields of AgentConfig that steer the decision loop
(the language model parameters are omitted). Defaults as in the source:
max_iterations 10, human_in_loop_threshold 0. -/
structure AgentConfig where
  agent_id : String
  name : String
  tier : ℕ
  category : String
  max_iterations : ℕ := 10
  human_in_loop_threshold : ℚ := 0
  deriving DecidableEq, Repr

/-- The three conditional-edge targets out of the agent node
("end" is rendered stop). -/
inductive NextNode where
  | tools
  | human_review
  | stop
  deriving DecidableEq, Repr

/-- Embedding of ProcurementAgent._should_continue: with tool calls
present, route to human_review when any call requires review, else to
tools; with none, end. -/
def should_continue (review : ToolCall → Bool)
    (toolCalls : List ToolCall) : NextNode :=
  if toolCalls.isEmpty then NextNode.stop
  else if toolCalls.any review then NextNode.human_review
  else NextNode.tools

/-- Graph reachability of the n-th visit to the agent node, for an
oracle giving the tool calls proposed at each visit: the compiled graph
loops tools → agent and human_review → agent, stopping only on the end
edge. Nothing in _build_graph or _should_continue reads max_iterations. -/
def reachesVisit (oracle : ℕ → List ToolCall) (review : ToolCall → Bool) :
    ℕ → Bool
  | 0 => true
  | n + 1 =>
    reachesVisit oracle review n &&
      decide (should_continue review (oracle n) ≠ NextNode.stop)

/-- An oracle that proposes one non-gated search tool call at every
visit. -/
def constSearchOracle : ℕ → List ToolCall := fun _ =>
  [⟨"search_products", [("query", ArgVal.str "nitrile gloves")]⟩]

/-- An agent configuration taking the source defaults
(max_iterations 10, threshold 0). -/
def defaultLoopConfig : AgentConfig :=
  { agent_id := "price-compare", name := "Price Compare Agent",
    tier := 1, category := "Core Price Intelligence" }

/-! ## Requisition approval workflow (RequisitionApprovalWorkflow.run)

Workflow time is in minutes; the run starts at time 0. The
check_approval_status activity result is an oracle stream indexed by
invocation count. The polling loop sleeps 15 minutes between checks;
the escalation grace period is 4 hours (240 minutes). -/
/-- Result of the check_approval_status activity. -/
structure ApprovalStatusR where
  approved : Bool
  rejected : Bool
  reason : Option String
  deriving DecidableEq, Repr

/-- The requisition dict fields the workflow reads. budget_code is an
optional field so that a missing dict key can be modelled; the other
keys read by the workflow (requisition_id, total, urgency) are taken as
present, and vendor_id is read with a default (dict get). -/
structure Requisition where
  requisition_id : String
  budget_code : Option String
  total : ℚ
  urgency : String
  vendor_id : Option String
  deriving DecidableEq, Repr

/-- The environment supplying activity results: the activity bodies in
the repository are placeholders, so results come from collaborators. -/
structure WfEnv where
  budgetAvailable : Bool
  status : ℕ → ApprovalStatusR
  poNumber : String
  sendPoResult : Bool

/-- Trace events: one per activity invocation or workflow sleep, plus a
tierWait event recording the deadline computed for a tier wait (the
assignment deadline = now + SLA in the source). -/
inductive Act where
  | validate_budget (code : String) (amount : ℚ)
  | determine_approvers_call
  | send_approval_notification (level : ℕ) (approver_id : String)
  | tierWait (level : ℕ) (start deadline : ℕ)
  | check_approval_status (t : ℕ)
  | sleep (minutes : ℕ)
  | escalate_approval (level : ℕ)
  | generate_purchase_order
  | send_po_to_vendor (po : String) (vendor : String)
  deriving DecidableEq, Repr

/-- The dict returned at a terminal state of the approval workflow,
with one optional field per key that some return site sets. The
details payload of the insufficient-budget branch (the raw budget-check
record) is not modelled; no claim touches it. -/
structure RunResult where
  status : String
  reason : Option String := none
  approver : Option String := none
  po_number : Option String := none
  auto_approved : Option Bool := none
  sent_to_vendor : Option Bool := none
  details : Option String := none
  deriving DecidableEq, Repr

/-- SLA hours by urgency: 48 for standard, 8 otherwise (the source is
a two-way conditional, so rush, emergency and any other string get 8). -/
def slaHours (urgency : String) : ℕ :=
  if urgency = "standard" then 48 else 8

/-- Outcome of one tier polling loop. -/
inductive PollOutcome where
  | approvedAt (t : ℕ)
  | rejectedAt (t : ℕ) (reason : Option String)
  | timeoutAt (t : ℕ)
  deriving DecidableEq, Repr

/-- The polling loop body (while now < deadline: check status; approved
breaks; rejected returns; otherwise sleep 15). Structural recursion on
an explicit iteration bound: each iteration advances now by 15 minutes,
so deadline - now strictly decreases and fuel = deadline - now suffices;
when fuel is 0 the loop guard now < deadline is already false. -/
def pollLoopAux (env : WfEnv) (deadline : ℕ) :
    ℕ → ℕ → ℕ → PollOutcome × ℕ × List Act
  | 0, now, calls => (PollOutcome.timeoutAt now, calls, [])
  | fuel + 1, now, calls =>
    if now < deadline then
      let st := env.status calls
      if st.approved then
        (PollOutcome.approvedAt now, calls + 1, [Act.check_approval_status now])
      else if st.rejected then
        (PollOutcome.rejectedAt now st.reason, calls + 1,
         [Act.check_approval_status now])
      else
        let r := pollLoopAux env deadline fuel (now + 15) (calls + 1)
        (r.1, r.2.1, Act.check_approval_status now :: Act.sleep 15 :: r.2.2)
    else (PollOutcome.timeoutAt now, calls, [])

/-- The tier polling loop, entered at time now with the given number of
prior status checks. -/
def pollLoop (env : WfEnv) (deadline now calls : ℕ) :
    PollOutcome × ℕ × List Act :=
  pollLoopAux env deadline (deadline - now) now calls

/-- Outcome of processing one tier: advance to the next tier at the
given time and call count, or stop with a terminal result. -/
inductive TierOutcome where
  | advance (now calls : ℕ)
  | rejectedStop (res : RunResult)
  | escalatedStop (res : RunResult)
  deriving Repr

/-- Embedding of one iteration of the per-approver loop in
RequisitionApprovalWorkflow.run: notify the approver, compute the
deadline from the current time and the urgency SLA, poll until a
decision or the deadline; on rejection terminate; on deadline expiry
escalate once, sleep the 4-hour grace period, make a final status
check, and terminate escalated_timeout unless that check is approved. -/
def processTier (env : WfEnv) (req : Requisition) (ap : Approver)
    (now calls : ℕ) : TierOutcome × List Act :=
  match pollLoop env (now + slaHours req.urgency * 60) now calls with
  | (PollOutcome.rejectedAt _ reason, _, tr1) =>
      (TierOutcome.rejectedStop
        { status := "rejected",
          reason := some (reason.getD "Rejected by approver"),
          approver := some ap.approver_id },
       [Act.send_approval_notification ap.level ap.approver_id,
        Act.tierWait ap.level now (now + slaHours req.urgency * 60)] ++ tr1)
  | (PollOutcome.approvedAt t, calls1, tr1) =>
      (TierOutcome.advance t calls1,
       [Act.send_approval_notification ap.level ap.approver_id,
        Act.tierWait ap.level now (now + slaHours req.urgency * 60)] ++ tr1)
  | (PollOutcome.timeoutAt t, calls1, tr1) =>
      if (env.status calls1).approved then
        (TierOutcome.advance (t + 240) (calls1 + 1),
         [Act.send_approval_notification ap.level ap.approver_id,
          Act.tierWait ap.level now (now + slaHours req.urgency * 60)] ++ tr1 ++
         [Act.escalate_approval ap.level, Act.sleep 240,
          Act.check_approval_status (t + 240)])
      else
        (TierOutcome.escalatedStop
          { status := "escalated_timeout",
            details := some "Approval not received after escalation" },
         [Act.send_approval_notification ap.level ap.approver_id,
          Act.tierWait ap.level now (now + slaHours req.urgency * 60)] ++ tr1 ++
         [Act.escalate_approval ap.level, Act.sleep 240,
          Act.check_approval_status (t + 240)])

/-- The per-approver loop over the chain: process tiers in order until
one stops the run; none stopping means every tier approved. -/
def processTiers (env : WfEnv) (req : Requisition) :
    List Approver → ℕ → ℕ → Option RunResult × List Act
  | [], _, _ => (none, [])
  | ap :: rest, now, calls =>
    match processTier env req ap now calls with
    | (TierOutcome.advance now2 calls2, tr) =>
        let r := processTiers env req rest now2 calls2
        (r.1, tr ++ r.2)
    | (TierOutcome.rejectedStop res, tr) => (some res, tr)
    | (TierOutcome.escalatedStop res, tr) => (some res, tr)

/-- Python errors the workflow can raise before reaching a terminal
state: a missing dict key. -/
inductive PyErr where
  | keyError (k : String)
  deriving DecidableEq, Repr

/-- Embedding of RequisitionApprovalWorkflow.run: validate budget,
resolve the approver chain, auto-approve on an empty chain (generate a
PO and return without vendor transmission), otherwise run the per-tier
loop and, if every tier approves, generate a PO and transmit it to the
vendor. The budget_code dict access raises KeyError when absent. -/
def runWorkflow (req : Requisition) (env : WfEnv) :
    Except PyErr (RunResult × List Act) :=
  match req.budget_code with
  | none => Except.error (PyErr.keyError "budget_code")
  | some code =>
    let tr0 := [Act.validate_budget code req.total]
    if env.budgetAvailable then
      let tr1 := tr0 ++ [Act.determine_approvers_call]
      let approvers := determine_approvers req.total
      if approvers.isEmpty then
        Except.ok
          ({ status := "complete", po_number := some env.poNumber,
             auto_approved := some true },
           tr1 ++ [Act.generate_purchase_order])
      else
        match processTiers env req approvers 0 0 with
        | (some res, tr2) => Except.ok (res, tr1 ++ tr2)
        | (none, tr2) =>
            Except.ok
              ({ status := "complete", po_number := some env.poNumber,
                 sent_to_vendor := some env.sendPoResult },
               tr1 ++ tr2 ++
                 [Act.generate_purchase_order,
                  Act.send_po_to_vendor env.poNumber (req.vendor_id.getD "")])
    else
      Except.ok ({ status := "rejected", reason := some "Insufficient budget" },
                 tr0)

/-! ### Trace observations -/
/-- The approval notifications in a trace, as (level, approver id). -/
def notifs (tr : List Act) : List (ℕ × String) :=
  tr.filterMap fun a =>
    match a with
    | Act.send_approval_notification l i => some (l, i)
    | _ => none

/-- The escalation notifications in a trace, by tier level. -/
def escalations (tr : List Act) : List ℕ :=
  tr.filterMap fun a =>
    match a with
    | Act.escalate_approval l => some l
    | _ => none

/-- The tier waits in a trace, as (level, wait start, deadline). -/
def tierWaits (tr : List Act) : List (ℕ × ℕ × ℕ) :=
  tr.filterMap fun a =>
    match a with
    | Act.tierWait l s d => some (l, s, d)
    | _ => none

/-! ## Invoice validation workflow (InvoiceValidationWorkflow.run) -/
/-- The environment supplying the invoice activity results: whether a
matching PO was found, the three check outcomes with their issue lists
(issue records are modelled as opaque strings), and the exception id
returned by create_exception. -/
structure InvEnv where
  poFound : Bool
  allMatched : Bool
  mismatches : List String
  allValid : Bool
  violations : List String
  allReceived : Bool
  receiptIssues : List String
  exceptionId : String

/-- Activity invocations of the invoice workflow, in call order. -/
inductive InvAct where
  | parse_invoice
  | find_matching_po
  | match_invoice_lines
  | validate_contract_prices
  | verify_receipts
  | approve_invoice
  | create_exception
  deriving DecidableEq, Repr

/-- The dict returned at a terminal state of the invoice workflow. -/
structure InvResult where
  status : String
  invoice_id : Option String := none
  requires_manual_review : Option Bool := none
  auto : Option Bool := none
  exception_id : Option String := none
  issues : Option (List String × List String × List String) := none
  deriving DecidableEq, Repr

/-- Embedding of InvoiceValidationWorkflow.run: parse, find the PO
(no match is terminal no_po_match flagged for manual review), then the
three checks, auto-approving iff all pass and otherwise creating an
exception that aggregates the three issue lists. -/
def runInvoice (invoiceId : String) (env : InvEnv) : InvResult × List InvAct :=
  if env.poFound then
    if env.allMatched && env.allValid && env.allReceived then
      ({ status := "approved", auto := some true },
       [InvAct.parse_invoice, InvAct.find_matching_po,
        InvAct.match_invoice_lines, InvAct.validate_contract_prices,
        InvAct.verify_receipts, InvAct.approve_invoice])
    else
      ({ status := "exception", exception_id := some env.exceptionId,
         issues := some (env.mismatches, env.violations, env.receiptIssues) },
       [InvAct.parse_invoice, InvAct.find_matching_po,
        InvAct.match_invoice_lines, InvAct.validate_contract_prices,
        InvAct.verify_receipts, InvAct.create_exception])
  else
    ({ status := "no_po_match", invoice_id := some invoiceId,
       requires_manual_review := some true },
     [InvAct.parse_invoice, InvAct.find_matching_po])

/-! ## Concrete inputs used by witnesses and counterexamples -/
/-- The environment matching the placeholder activity bodies of the
repository: budget available, status forever pending, transmission ok. -/
def stubEnv : WfEnv :=
  { budgetAvailable := true, status := fun _ => ⟨false, false, none⟩,
    poNumber := "PO-REQ001", sendPoResult := true }

/-- An environment whose status oracle reports both approved and
rejected at every inspection. -/
def envBothFlags : WfEnv :=
  { budgetAvailable := true, status := fun _ => ⟨true, true, some "race"⟩,
    poNumber := "PO-0001", sendPoResult := true }

/-- An environment that rejects at the first status inspection. -/
def envRejectFirst : WfEnv :=
  { budgetAvailable := true, status := fun _ => ⟨false, true, some "over budget"⟩,
    poNumber := "PO-0001", sendPoResult := true }

/-- An environment whose first status inspection is approved and every
later one pending: the first tier approves instantly, later tiers
starve. -/
def envApproveCallZero : WfEnv :=
  { budgetAvailable := true,
    status := fun c => if c = 0 then ⟨true, false, none⟩ else ⟨false, false, none⟩,
    poNumber := "PO-0001", sendPoResult := true }

/-- An environment whose first status inspection is pending and every
later one approved: the first tier approves at its second poll. -/
def envApproveFromCallOne : WfEnv :=
  { budgetAvailable := true,
    status := fun c => if c = 0 then ⟨false, false, none⟩ else ⟨true, false, none⟩,
    poNumber := "PO-0001", sendPoResult := true }

/-- A rush requisition for 600, needing only the manager tier. -/
def req600 : Requisition :=
  ⟨"REQ-0001", some "BUD-1", 600, "rush", some "vendor_9"⟩

/-- A rush requisition for 6000, needing manager and director tiers. -/
def req6000 : Requisition :=
  ⟨"REQ-0002", some "BUD-1", 6000, "rush", some "vendor_9"⟩

/-- A standard requisition for 300: the chain is empty. -/
def req300 : Requisition :=
  ⟨"REQ-0003", some "BUD-1", 300, "standard", some "vendor_9"⟩

/-- A malformed requisition with a negative total. -/
def reqNeg : Requisition :=
  ⟨"REQ-0004", some "BUD-123", -5, "standard", none⟩

/-- A malformed requisition missing the budget_code key. -/
def reqNoBudget : Requisition :=
  ⟨"REQ-0005", none, 900, "standard", none⟩

/-- The terminal result of every escalated-timeout run: a fixed record
that mentions no tier. -/
def escalatedTimeoutResult : RunResult :=
  { status := "escalated_timeout",
    details := some "Approval not received after escalation" }

/-- The terminal result of a run, when it returned one. -/
def runResultOf (req : Requisition) (env : WfEnv) : Option RunResult :=
  (runWorkflow req env).toOption.map Prod.fst

/-- The escalation levels of a run trace, when the run returned. -/
def runEscalationsOf (req : Requisition) (env : WfEnv) : Option (List ℕ) :=
  (runWorkflow req env).toOption.map fun p => escalations p.2

/-- The terminal result and trace of the run of req600 against the
forever-pending environment (used to instantiate the escalation
theorem at a concrete input). -/
def escPair : RunResult × List Act :=
  ((runWorkflow req600 stubEnv).toOption).getD ({ status := "" }, [])

/-- The trace of the two-tier rush run in which the manager approves at
the second poll (15 minutes in) and the director immediately after. -/
def trRushTwoTier : List Act :=
  [Act.validate_budget "BUD-1" 6000, Act.determine_approvers_call,
   Act.send_approval_notification 1 "manager_001", Act.tierWait 1 0 480,
   Act.check_approval_status 0, Act.sleep 15, Act.check_approval_status 15,
   Act.send_approval_notification 2 "director_001", Act.tierWait 2 15 495,
   Act.check_approval_status 15, Act.generate_purchase_order,
   Act.send_po_to_vendor "PO-0001" "vendor_9"]

/-! ## Theorems -/

theorem determine_approvers_eq_take (total : ℚ) :
    determine_approvers total = fullLadder.take (tierCount total) := by
  unfold determine_approvers tierCount fullLadder
  split_ifs with h1 h2 h3 h4 <;> simp_all <;> linarith

theorem tierCount_mono : Monotone tierCount := by
  intro a b hab
  unfold tierCount
  split_ifs <;> first
    | omega
    | (exfalso; linarith)

theorem length_determine_approvers (total : ℚ) :
    (determine_approvers total).length = tierCount total := by
  rw [determine_approvers_eq_take]
  have h : tierCount total ≤ 4 := by unfold tierCount; split_ifs <;> omega
  simp [fullLadder]
  omega

/-- C1: the resolver realises the threshold table with inclusive upper
bounds; every chain is a prefix of the full ladder; chain length is
non-decreasing in the amount. -/
theorem approver_chain_threshold_table (total : ℚ) :
    (total ≤ 500 → determine_approvers total = []) ∧
    (500 < total → total ≤ 5000 →
      determine_approvers total = [managerApprover]) ∧
    (5000 < total → total ≤ 25000 →
      determine_approvers total = [managerApprover, directorApprover]) ∧
    (25000 < total → total ≤ 100000 →
      determine_approvers total = [managerApprover, directorApprover, vpApprover]) ∧
    (100000 < total →
      determine_approvers total =
        [managerApprover, directorApprover, vpApprover, cfoApprover]) ∧
    (∃ rest, determine_approvers total ++ rest = fullLadder) ∧
    (∀ s : ℚ, total ≤ s →
      (determine_approvers total).length ≤ (determine_approvers s).length) := by
  refine ⟨?_, ?_, ?_, ?_, ?_, ?_, ?_⟩
  · intro h
    rw [determine_approvers_eq_take]
    have : tierCount total = 0 := by unfold tierCount; split_ifs <;> linarith
    simp [this]
  · intro h1 h2
    rw [determine_approvers_eq_take]
    have : tierCount total = 1 := by unfold tierCount; split_ifs <;> linarith
    simp [this, fullLadder]
  · intro h1 h2
    rw [determine_approvers_eq_take]
    have : tierCount total = 2 := by unfold tierCount; split_ifs <;> linarith
    simp [this, fullLadder]
  · intro h1 h2
    rw [determine_approvers_eq_take]
    have : tierCount total = 3 := by unfold tierCount; split_ifs <;> linarith
    simp [this, fullLadder]
  · intro h1
    rw [determine_approvers_eq_take]
    have : tierCount total = 4 := by unfold tierCount; split_ifs <;> linarith
    simp [this, fullLadder]
  · refine ⟨fullLadder.drop (tierCount total), ?_⟩
    rw [determine_approvers_eq_take, List.take_append_drop]
  · intro s hs
    rw [length_determine_approvers, length_determine_approvers]
    exact tierCount_mono hs

/-- Witness for C1: the interval facts instantiated at concrete totals. -/
theorem approver_chain_threshold_table_witness :
    determine_approvers 300 = [] ∧
    determine_approvers 600 = [managerApprover] ∧
    determine_approvers 6000 = [managerApprover, directorApprover] ∧
    determine_approvers 30000 = [managerApprover, directorApprover, vpApprover] ∧
    determine_approvers 200000 =
      [managerApprover, directorApprover, vpApprover, cfoApprover] :=
  ⟨(approver_chain_threshold_table 300).1 (by norm_num),
   (approver_chain_threshold_table 600).2.1 (by norm_num) (by norm_num),
   (approver_chain_threshold_table 6000).2.2.1 (by norm_num) (by norm_num),
   (approver_chain_threshold_table 30000).2.2.2.1 (by norm_num) (by norm_num),
   (approver_chain_threshold_table 200000).2.2.2.2.1 (by norm_num)⟩

/-- C2 counterexample: PriceWatchAgent is configured with threshold 0,
yet its human gate evaluation returns true on a critical slack alert —
so a nonpositive threshold does not make the gate return false for every
agent and tool call. -/
theorem gate_fires_at_zero_threshold_on_priceWatch :
    priceWatchThreshold ≤ 0 ∧
    requires_human_review AgentKind.priceWatch priceWatchThreshold
      criticalAlertCall = true := by
  constructor
  · norm_num [priceWatchThreshold]
  · rfl

/-- C2 amended: the base-class human gate evaluation returns false for
every tool call whenever the configured threshold is nonpositive; the
PriceWatchAgent override ignores the threshold. -/
theorem base_gate_never_fires_nonpositive_threshold
    (th : ℚ) (tc : ToolCall) (h : th ≤ 0) :
    requires_human_review AgentKind.base th tc = false := by
  simp [requires_human_review, base_requires_human_review, h]

/-- Witness for the amended C2 at a concrete threshold and tool call. -/
theorem base_gate_never_fires_nonpositive_threshold_witness :
    requires_human_review AgentKind.base 0 criticalAlertCall = false :=
  base_gate_never_fires_nonpositive_threshold 0 criticalAlertCall (by norm_num)

/-- C8: the configured max_iterations guard is never enforced — with the
default configuration (max_iterations 10) and an oracle that always
proposes a non-gated tool call, the decision loop reaches every visit
count, in particular an eleventh oracle round trip, and no fatal
condition tied to max_iterations exists in the loop. -/
theorem decision_loop_max_iterations_not_enforced :
    defaultLoopConfig.max_iterations = 10 ∧
    ∀ n : ℕ, reachesVisit constSearchOracle
      (requires_human_review AgentKind.base
        defaultLoopConfig.human_in_loop_threshold) n = true := by
  refine ⟨rfl, ?_⟩
  intro n
  induction n with
  | zero => rfl
  | succ k ih =>
    simp only [reachesVisit, ih, Bool.true_and, decide_eq_true_eq]
    intro hstop
    simp [should_continue, constSearchOracle, requires_human_review,
      base_requires_human_review, defaultLoopConfig] at hstop

theorem pollLoopAux_acts (env : WfEnv) (d : ℕ) :
    ∀ fuel now calls, ∀ a ∈ (pollLoopAux env d fuel now calls).2.2,
      (∃ t, a = Act.check_approval_status t) ∨ a = Act.sleep 15 := by
  intro fuel
  induction fuel with
  | zero => intro now calls a ha; simp [pollLoopAux] at ha
  | succ k ih =>
    intro now calls a ha
    simp only [pollLoopAux] at ha
    split_ifs at ha with h1 h2 h3
    · simp at ha
      exact Or.inl ⟨now, ha⟩
    · simp at ha
      exact Or.inl ⟨now, ha⟩
    · simp only [List.mem_cons] at ha
      rcases ha with rfl | rfl | ha
      · exact Or.inl ⟨now, rfl⟩
      · exact Or.inr rfl
      · exact ih (now + 15) (calls + 1) a ha
    · simp at ha

theorem notifs_pollLoop (env : WfEnv) (d now calls : ℕ) :
    notifs (pollLoop env d now calls).2.2 = [] := by
  rw [notifs, List.filterMap_eq_nil]
  intro a ha
  rcases pollLoopAux_acts env d (d - now) now calls a ha with ⟨t, rfl⟩ | rfl <;> rfl

theorem escalations_pollLoop (env : WfEnv) (d now calls : ℕ) :
    escalations (pollLoop env d now calls).2.2 = [] := by
  rw [escalations, List.filterMap_eq_nil]
  intro a ha
  rcases pollLoopAux_acts env d (d - now) now calls a ha with ⟨t, rfl⟩ | rfl <;> rfl

theorem tierWaits_pollLoop (env : WfEnv) (d now calls : ℕ) :
    tierWaits (pollLoop env d now calls).2.2 = [] := by
  rw [tierWaits, List.filterMap_eq_nil]
  intro a ha
  rcases pollLoopAux_acts env d (d - now) now calls a ha with ⟨t, rfl⟩ | rfl <;> rfl

theorem notifs_processTier (env : WfEnv) (req : Requisition) (ap : Approver)
    (now calls : ℕ) :
    notifs (processTier env req ap now calls).2 = [(ap.level, ap.approver_id)] := by
  unfold processTier
  split <;> rename_i heq <;>
    (have h1 := notifs_pollLoop env (now + slaHours req.urgency * 60) now calls
     rw [heq] at h1) <;>
    (try split_ifs) <;>
    simp_all [notifs, List.filterMap_append, List.filterMap_eq_nil_iff]

theorem escalations_processTier (env : WfEnv) (req : Requisition)
    (ap : Approver) (now calls : ℕ) :
    List.Sublist (escalations (processTier env req ap now calls).2)
      [ap.level] := by
  unfold processTier
  split <;> rename_i heq <;>
    (have h1 := escalations_pollLoop env (now + slaHours req.urgency * 60) now calls
     rw [heq] at h1) <;>
    (try split_ifs) <;>
    simp_all [escalations, List.filterMap_append, List.filterMap_eq_nil_iff]

theorem tierWaits_processTier (env : WfEnv) (req : Requisition)
    (ap : Approver) (now calls : ℕ) :
    tierWaits (processTier env req ap now calls).2 =
      [(ap.level, now, now + slaHours req.urgency * 60)] := by
  unfold processTier
  split <;> rename_i heq <;>
    (have h1 := tierWaits_pollLoop env (now + slaHours req.urgency * 60) now calls
     rw [heq] at h1) <;>
    (try split_ifs) <;>
    simp_all [tierWaits, List.filterMap_append, List.filterMap_eq_nil_iff]

theorem processTier_rejectedStop (env : WfEnv) (req : Requisition)
    (ap : Approver) (now calls : ℕ) (res : RunResult) (tr : List Act)
    (h : processTier env req ap now calls = (TierOutcome.rejectedStop res, tr)) :
    res.status = "rejected" ∧ res.approver = some ap.approver_id ∧
      res.reason.isSome := by
  unfold processTier at h
  split at h
  · simp only [Prod.mk.injEq, TierOutcome.rejectedStop.injEq] at h
    rcases h with ⟨rfl, rfl⟩
    simp
  · simp at h
  · split_ifs at h <;> simp at h

theorem processTier_escalatedStop (env : WfEnv) (req : Requisition)
    (ap : Approver) (now calls : ℕ) (res : RunResult) (tr : List Act)
    (h : processTier env req ap now calls = (TierOutcome.escalatedStop res, tr)) :
    res = { status := "escalated_timeout",
            details := some "Approval not received after escalation" } ∧
    ∃ trPre t, tr = trPre ++ [Act.escalate_approval ap.level, Act.sleep 240,
      Act.check_approval_status t] := by
  unfold processTier at h
  split at h
  · simp at h
  · simp at h
  · rename_i t calls1 tr1 heq
    split_ifs at h
    · simp at h
    · simp only [Prod.mk.injEq, TierOutcome.escalatedStop.injEq] at h
      rcases h with ⟨rfl, rfl⟩
      refine ⟨rfl, ?_⟩
      exact ⟨[Act.send_approval_notification ap.level ap.approver_id,
              Act.tierWait ap.level now (now + slaHours req.urgency * 60)] ++ tr1,
             t + 240, by simp⟩

theorem notifs_append (l1 l2 : List Act) :
    notifs (l1 ++ l2) = notifs l1 ++ notifs l2 :=
  List.filterMap_append l1 l2 _

theorem escalations_append (l1 l2 : List Act) :
    escalations (l1 ++ l2) = escalations l1 ++ escalations l2 :=
  List.filterMap_append l1 l2 _

theorem tierWaits_append (l1 l2 : List Act) :
    tierWaits (l1 ++ l2) = tierWaits l1 ++ tierWaits l2 :=
  List.filterMap_append l1 l2 _

/-- The shape of a terminal result produced inside the per-tier loop:
it stops at some tier i, exactly the tiers up to i have been notified,
each tier escalates at most once, a rejection carries that tier's
approver and a reason, and an escalated timeout carries the fixed
details string and ends the trace with the escalate / 4-hour sleep /
final check sequence of tier i. -/
theorem processTiers_some_spec (env : WfEnv) (req : Requisition) :
    ∀ (l : List Approver) (now calls : ℕ) (res : RunResult) (tr : List Act),
      processTiers env req l now calls = (some res, tr) →
      ∃ i, ∃ hi : i < l.length,
        notifs tr = ((l.take (i+1)).map fun a => (a.level, a.approver_id)) ∧
        List.Sublist (escalations tr) ((l.take (i+1)).map fun a => a.level) ∧
        (res.status = "rejected" ∨ res.status = "escalated_timeout") ∧
        (res.status = "rejected" →
          res.approver = some (l.get ⟨i, hi⟩).approver_id ∧ res.reason.isSome) ∧
        (res.status = "escalated_timeout" →
          res.details = some "Approval not received after escalation" ∧
          ∃ trPre t, tr = trPre ++ [Act.escalate_approval (l.get ⟨i, hi⟩).level,
            Act.sleep 240, Act.check_approval_status t]) := by
  intro l
  induction l with
  | nil => intro now calls res tr h; simp [processTiers] at h
  | cons ap rest ih =>
    intro now calls res tr h
    rw [processTiers] at h
    split at h
    · -- the tier advanced; the terminal result comes from a later tier
      rename_i now2 calls2 trH heq
      rcases hr : processTiers env req rest now2 calls2 with ⟨o2, tr2⟩
      rw [hr] at h
      simp only [Prod.mk.injEq] at h
      rcases h with ⟨ho2, htr⟩
      subst htr
      rcases ih now2 calls2 res tr2 (by rw [hr, ho2]) with
        ⟨i, hi, h1, h2, h3, h4, h5⟩
      have hN : notifs trH = [(ap.level, ap.approver_id)] := by
        have := notifs_processTier env req ap now calls
        rw [heq] at this
        exact this
      have hE : List.Sublist (escalations trH) [ap.level] := by
        have := escalations_processTier env req ap now calls
        rw [heq] at this
        exact this
      refine ⟨i + 1, by simpa using Nat.succ_lt_succ hi, ?_, ?_, h3, ?_, ?_⟩
      · rw [notifs_append, hN, List.take_succ_cons, List.map_cons, h1]
        rfl
      · rw [escalations_append, List.take_succ_cons, List.map_cons]
        exact List.Sublist.append hE h2
      · intro hst
        rcases h4 hst with ⟨ha, hb⟩
        exact ⟨by simpa using ha, hb⟩
      · intro hst
        rcases h5 hst with ⟨hd, trPre, t, htr2⟩
        refine ⟨hd, trH ++ trPre, t, ?_⟩
        rw [htr2, List.get_cons_succ, List.append_assoc]
    · -- the tier rejected the requisition
      rename_i res0 trH heq
      simp only [Prod.mk.injEq, Option.some.injEq] at h
      rcases h with ⟨rfl, rfl⟩
      rcases processTier_rejectedStop env req ap now calls res0 trH heq with
        ⟨hst, hap, hrs⟩
      have hN : notifs trH = [(ap.level, ap.approver_id)] := by
        have := notifs_processTier env req ap now calls
        rw [heq] at this
        exact this
      have hE : List.Sublist (escalations trH) [ap.level] := by
        have := escalations_processTier env req ap now calls
        rw [heq] at this
        exact this
      refine ⟨0, Nat.succ_pos _, ?_, ?_, Or.inl hst, ?_, ?_⟩
      · simpa using hN
      · simpa using hE
      · intro _
        exact ⟨hap, hrs⟩
      · intro hst2
        rw [hst] at hst2
        exact absurd hst2 (by decide)
    · -- the tier timed out and the escalation grace elapsed undecided
      rename_i res0 trH heq
      simp only [Prod.mk.injEq, Option.some.injEq] at h
      rcases h with ⟨rfl, rfl⟩
      rcases processTier_escalatedStop env req ap now calls res0 trH heq with
        ⟨hres, trPre, t, htr⟩
      have hN : notifs trH = [(ap.level, ap.approver_id)] := by
        have := notifs_processTier env req ap now calls
        rw [heq] at this
        exact this
      have hE : List.Sublist (escalations trH) [ap.level] := by
        have := escalations_processTier env req ap now calls
        rw [heq] at this
        exact this
      refine ⟨0, Nat.succ_pos _, ?_, ?_, Or.inr (by rw [hres]), ?_, ?_⟩
      · simpa using hN
      · simpa using hE
      · intro hst2
        rw [hres] at hst2
        exact absurd hst2 (by decide)
      · intro _
        exact ⟨by rw [hres], trPre, t, by simpa using htr⟩

theorem pollLoop_first_approved (env : WfEnv) (d now calls : ℕ)
    (hd : now < d) (ha : (env.status calls).approved = true) :
    pollLoop env d now calls =
      (PollOutcome.approvedAt now, calls + 1, [Act.check_approval_status now]) := by
  unfold pollLoop
  obtain ⟨k, hk⟩ : ∃ k, d - now = k + 1 := ⟨d - now - 1, by omega⟩
  rw [hk]
  simp [pollLoopAux, hd, ha]

theorem slaHours_pos (urgency : String) : 0 < slaHours urgency := by
  unfold slaHours
  split_ifs <;> omega

theorem processTier_all_approved (env : WfEnv) (req : Requisition)
    (ap : Approver) (now calls : ℕ)
    (ha : (env.status calls).approved = true) :
    processTier env req ap now calls =
      (TierOutcome.advance now (calls + 1),
       [Act.send_approval_notification ap.level ap.approver_id,
        Act.tierWait ap.level now (now + slaHours req.urgency * 60)] ++
       [Act.check_approval_status now]) := by
  have hd : now < now + slaHours req.urgency * 60 := by
    have := slaHours_pos req.urgency
    omega
  unfold processTier
  rw [pollLoop_first_approved env _ now calls hd ha]

theorem processTiers_all_approved (env : WfEnv) (req : Requisition)
    (hap : ∀ c, (env.status c).approved = true) :
    ∀ (l : List Approver) (now calls : ℕ),
      (processTiers env req l now calls).1 = none := by
  intro l
  induction l with
  | nil => intro now calls; simp [processTiers]
  | cons ap rest ih =>
    intro now calls
    rw [processTiers, processTier_all_approved env req ap now calls (hap calls)]
    simp [ih]

theorem processTiers_tierWaits (env : WfEnv) (req : Requisition) :
    ∀ (l : List Approver) (now calls : ℕ) (lvl s d : ℕ),
      (lvl, s, d) ∈ tierWaits (processTiers env req l now calls).2 →
      d = s + slaHours req.urgency * 60 := by
  intro l
  induction l with
  | nil => intro now calls lvl s d hmem; simp [processTiers, tierWaits] at hmem
  | cons ap rest ih =>
    intro now calls lvl s d hmem
    rw [processTiers] at hmem
    split at hmem
    · rename_i now2 calls2 trH heq
      rcases hr : processTiers env req rest now2 calls2 with ⟨o2, tr2⟩
      rw [hr] at hmem
      have hW : tierWaits trH = [(ap.level, now, now + slaHours req.urgency * 60)] := by
        have h0 := tierWaits_processTier env req ap now calls
        rw [heq] at h0
        exact h0
      simp only [tierWaits_append, hW, List.mem_append, List.mem_singleton] at hmem
      rcases hmem with hmem | hmem
      · rcases Prod.mk.injEq .. ▸ hmem with ⟨h1, h2⟩
        rcases Prod.mk.injEq .. ▸ h2 with ⟨h3, h4⟩
        omega
      · have h0 := ih now2 calls2 lvl s d
        rw [hr] at h0
        exact h0 hmem
    · rename_i res0 trH heq
      have hW : tierWaits trH = [(ap.level, now, now + slaHours req.urgency * 60)] := by
        have h0 := tierWaits_processTier env req ap now calls
        rw [heq] at h0
        exact h0
      simp only [hW, List.mem_singleton] at hmem
      rcases Prod.mk.injEq .. ▸ hmem with ⟨h1, h2⟩
      rcases Prod.mk.injEq .. ▸ h2 with ⟨h3, h4⟩
      omega
    · rename_i res0 trH heq
      have hW : tierWaits trH = [(ap.level, now, now + slaHours req.urgency * 60)] := by
        have h0 := tierWaits_processTier env req ap now calls
        rw [heq] at h0
        exact h0
      simp only [hW, List.mem_singleton] at hmem
      rcases Prod.mk.injEq .. ▸ hmem with ⟨h1, h2⟩
      rcases Prod.mk.injEq .. ▸ h2 with ⟨h3, h4⟩
      omega

theorem processTiers_head_tierWait (env : WfEnv) (req : Requisition)
    (ap : Approver) (rest : List Approver) (now calls : ℕ) :
    ∃ restW,
      tierWaits (processTiers env req (ap :: rest) now calls).2 =
        (ap.level, now, now + slaHours req.urgency * 60) :: restW := by
  rw [processTiers]
  split
  · rename_i now2 calls2 trH heq
    have hW : tierWaits trH = [(ap.level, now, now + slaHours req.urgency * 60)] := by
      have h0 := tierWaits_processTier env req ap now calls
      rw [heq] at h0
      exact h0
    exact ⟨tierWaits (processTiers env req rest now2 calls2).2,
      by simp [tierWaits_append, hW]⟩
  · rename_i res0 trH heq
    have hW : tierWaits trH = [(ap.level, now, now + slaHours req.urgency * 60)] := by
      have h0 := tierWaits_processTier env req ap now calls
      rw [heq] at h0
      exact h0
    exact ⟨[], by simp [hW]⟩
  · rename_i res0 trH heq
    have hW : tierWaits trH = [(ap.level, now, now + slaHours req.urgency * 60)] := by
      have h0 := tierWaits_processTier env req ap now calls
      rw [heq] at h0
      exact h0
    exact ⟨[], by simp [hW]⟩

theorem chain_levels_increasing (total : ℚ) :
    List.Pairwise (fun a b => a.level < b.level) (determine_approvers total) := by
  rw [determine_approvers_eq_take]
  have h : List.Pairwise (fun a b : Approver => a.level < b.level) fullLadder := by
    unfold fullLadder managerApprover directorApprover vpApprover cfoApprover
    simp
  exact h.sublist (List.take_sublist _ _)

/-- C9 counterexample: with approved and rejected both set at every
status inspection, the run of a one-tier requisition terminates
complete (the approved branch is taken first), not rejected. -/
theorem concurrent_flags_run_completes :
    (envBothFlags.status 0).approved = true ∧
    (envBothFlags.status 0).rejected = true ∧
    runWorkflow req600 envBothFlags = Except.ok
      ({ status := "complete", po_number := some "PO-0001",
         sent_to_vendor := some true },
       [Act.validate_budget "BUD-1" 600, Act.determine_approvers_call,
        Act.send_approval_notification 1 "manager_001", Act.tierWait 1 0 480,
        Act.check_approval_status 0, Act.generate_purchase_order,
        Act.send_po_to_vendor "PO-0001" "vendor_9"]) ∧
    "complete" ≠ "rejected" :=
  ⟨rfl, rfl, rfl, by decide⟩

/-- C9 amended: at a status inspection the approved flag is checked
first, so Approved takes precedence over Rejected: whenever every
inspection reports approved (whatever the rejected flag says), a run
with budget available terminates complete, never rejected. -/
theorem run_completes_when_status_approved (req : Requisition) (env : WfEnv)
    (code : String) (hbc : req.budget_code = some code)
    (hb : env.budgetAvailable = true)
    (hap : ∀ c, (env.status c).approved = true) :
    ∃ res tr, runWorkflow req env = Except.ok (res, tr) ∧
      res.status = "complete" := by
  unfold runWorkflow
  rw [hbc]
  by_cases he : (determine_approvers req.total).isEmpty
  · simp only [hb, he, if_true]
    exact ⟨_, _, rfl, rfl⟩
  · simp only [hb, he, if_true, if_false, Bool.false_eq_true]
    rcases hpt : processTiers env req (determine_approvers req.total) 0 0
      with ⟨o, tr2⟩
    have ho : o = none := by
      have h0 := processTiers_all_approved env req hap
        (determine_approvers req.total) 0 0
      rw [hpt] at h0
      exact h0
    subst ho
    exact ⟨_, _, rfl, rfl⟩

/-- C9 witness: the amended statement applied to the both-flags
environment and a one-tier requisition. -/
theorem run_completes_when_status_approved_witness :
    ∃ res tr, runWorkflow req600 envBothFlags = Except.ok (res, tr) ∧
      res.status = "complete" :=
  run_completes_when_status_approved req600 envBothFlags "BUD-1" rfl rfl
    (fun _ => rfl)

/-- C6 counterexample: a requisition with a non-positive total is not
rejected by any validation: the run proceeds through the pipeline
(budget validation, chain resolution, PO generation) and terminates
complete, rather than failing with a configuration error. -/
theorem negative_total_completes :
    reqNeg.total ≤ 0 ∧
    runWorkflow reqNeg stubEnv = Except.ok
      ({ status := "complete", po_number := some "PO-REQ001",
         auto_approved := some true },
       [Act.validate_budget "BUD-123" (-5), Act.determine_approvers_call,
        Act.generate_purchase_order]) :=
  ⟨by decide, rfl⟩

/-- C6 amended: the workflow performs no requisition validation — a
missing budget_code key raises a KeyError (a generic lookup error, not
a dedicated configuration error), and a non-positive total proceeds
through the pipeline, resolves an empty chain and completes
auto-approved. -/
theorem no_requisition_validation :
    (∀ (req : Requisition) (env : WfEnv), req.budget_code = none →
      runWorkflow req env = Except.error (PyErr.keyError "budget_code")) ∧
    (∀ (req : Requisition) (env : WfEnv) (code : String),
      req.budget_code = some code → env.budgetAvailable = true →
      req.total ≤ 0 →
      runWorkflow req env = Except.ok
        ({ status := "complete", po_number := some env.poNumber,
           auto_approved := some true },
         [Act.validate_budget code req.total, Act.determine_approvers_call,
          Act.generate_purchase_order])) := by
  constructor
  · intro req env hbc
    unfold runWorkflow
    rw [hbc]
  · intro req env code hbc hb htot
    have hch : determine_approvers req.total = [] := by
      rw [determine_approvers_eq_take]
      have h0 : tierCount req.total = 0 := by
        unfold tierCount
        split_ifs <;> linarith
      simp [h0]
    unfold runWorkflow
    rw [hbc]
    simp [hb, hch]

/-- C6 witness: the amended statement at the two malformed concrete
requisitions. -/
theorem no_requisition_validation_witness :
    runWorkflow reqNoBudget stubEnv = Except.error (PyErr.keyError "budget_code") ∧
    runWorkflow reqNeg stubEnv = Except.ok
      ({ status := "complete", po_number := some stubEnv.poNumber,
         auto_approved := some true },
       [Act.validate_budget "BUD-123" reqNeg.total, Act.determine_approvers_call,
        Act.generate_purchase_order]) :=
  ⟨no_requisition_validation.1 reqNoBudget stubEnv rfl,
   no_requisition_validation.2 reqNeg stubEnv "BUD-123" rfl rfl (by decide)⟩

/-- C10: an empty-chain (auto-approval) run generates a PO and
terminates complete with auto_approved true, never invokes
send_po_to_vendor and carries no sent_to_vendor field, whereas a
non-empty-chain run that completes carries sent_to_vendor and did
invoke send_po_to_vendor. -/
theorem auto_approval_skips_vendor_transmission (req : Requisition)
    (env : WfEnv) (code : String) (hbc : req.budget_code = some code)
    (hb : env.budgetAvailable = true) :
    (req.total ≤ 500 →
      runWorkflow req env = Except.ok
        ({ status := "complete", po_number := some env.poNumber,
           auto_approved := some true, sent_to_vendor := none },
         [Act.validate_budget code req.total, Act.determine_approvers_call,
          Act.generate_purchase_order]) ∧
      ∀ po v, Act.send_po_to_vendor po v ∉
        ([Act.validate_budget code req.total, Act.determine_approvers_call,
          Act.generate_purchase_order] : List Act)) ∧
    (500 < req.total → ∀ res tr,
      runWorkflow req env = Except.ok (res, tr) → res.status = "complete" →
      res.auto_approved = none ∧ res.sent_to_vendor = some env.sendPoResult ∧
      Act.send_po_to_vendor env.poNumber (req.vendor_id.getD "") ∈ tr) := by
  constructor
  · intro htot
    have hch : determine_approvers req.total = [] := by
      rw [determine_approvers_eq_take]
      have h0 : tierCount req.total = 0 := by
        unfold tierCount
        split_ifs <;> linarith
      simp [h0]
    constructor
    · unfold runWorkflow
      rw [hbc]
      simp [hb, hch]
    · intro po v hmem
      simp at hmem
  · intro htot res tr h hst
    have hne : determine_approvers req.total ≠ [] := by
      intro h0
      have hlen := length_determine_approvers req.total
      rw [h0] at hlen
      have htc : 1 ≤ tierCount req.total := by
        unfold tierCount
        split_ifs <;> first | omega | linarith
      simp at hlen
      omega
    have hemp : (determine_approvers req.total).isEmpty = false := by
      rcases hie : (determine_approvers req.total).isEmpty
      · rfl
      · exact absurd (List.isEmpty_iff.mp hie) hne
    unfold runWorkflow at h
    rw [hbc] at h
    simp only [hb, hemp, if_true, if_false, Bool.false_eq_true] at h
    split at h
    · rename_i res0 tr2 heq
      simp only [Except.ok.injEq, Prod.mk.injEq] at h
      rcases h with ⟨rfl, rfl⟩
      rcases processTiers_some_spec env req (determine_approvers req.total)
        0 0 res0 tr2 heq with ⟨i, hi, _, _, h3, _, _⟩
      rcases h3 with h3 | h3 <;> rw [h3] at hst <;> exact absurd hst (by decide)
    · rename_i tr2 heq
      simp only [Except.ok.injEq, Prod.mk.injEq] at h
      rcases h with ⟨rfl, rfl⟩
      refine ⟨rfl, rfl, ?_⟩
      simp

/-- C10 witness: both parts at concrete inputs — the empty-chain part
at the 300 requisition and the contrast part at the completed run of
the 600 requisition against the both-flags environment. -/
theorem auto_approval_skips_vendor_transmission_witness :
    runWorkflow req300 stubEnv = Except.ok
      ({ status := "complete", po_number := some stubEnv.poNumber,
         auto_approved := some true, sent_to_vendor := none },
       [Act.validate_budget "BUD-1" req300.total, Act.determine_approvers_call,
        Act.generate_purchase_order]) ∧
    ({ status := "complete", po_number := some "PO-0001",
       sent_to_vendor := some true } : RunResult).auto_approved = none ∧
    ({ status := "complete", po_number := some "PO-0001",
       sent_to_vendor := some true } : RunResult).sent_to_vendor =
      some envBothFlags.sendPoResult ∧
    Act.send_po_to_vendor envBothFlags.poNumber (req600.vendor_id.getD "") ∈
      [Act.validate_budget "BUD-1" 600, Act.determine_approvers_call,
       Act.send_approval_notification 1 "manager_001", Act.tierWait 1 0 480,
       Act.check_approval_status 0, Act.generate_purchase_order,
       Act.send_po_to_vendor "PO-0001" "vendor_9"] :=
  ⟨((auto_approval_skips_vendor_transmission req300 stubEnv "BUD-1" rfl
      rfl).1 (by decide)).1,
   (auto_approval_skips_vendor_transmission req600 envBothFlags "BUD-1" rfl
      rfl).2 (by decide) _ _ rfl rfl⟩

/-- Case analysis on a run that returned: insufficient budget, empty
chain (auto approval), a tier stopping the run, or all tiers approving. -/
theorem runWorkflow_ok_shape (req : Requisition) (env : WfEnv)
    (res : RunResult) (tr : List Act)
    (h : runWorkflow req env = Except.ok (res, tr)) :
    ∃ code, req.budget_code = some code ∧
      ((env.budgetAvailable = false ∧
        res = { status := "rejected", reason := some "Insufficient budget" } ∧
        tr = [Act.validate_budget code req.total]) ∨
       (env.budgetAvailable = true ∧ determine_approvers req.total = [] ∧
        res = { status := "complete", po_number := some env.poNumber,
                auto_approved := some true } ∧
        tr = [Act.validate_budget code req.total, Act.determine_approvers_call,
              Act.generate_purchase_order]) ∨
       (env.budgetAvailable = true ∧ determine_approvers req.total ≠ [] ∧
        ∃ res0 tr2, processTiers env req (determine_approvers req.total) 0 0 =
            (some res0, tr2) ∧ res = res0 ∧
          tr = [Act.validate_budget code req.total,
                Act.determine_approvers_call] ++ tr2) ∨
       (env.budgetAvailable = true ∧ determine_approvers req.total ≠ [] ∧
        ∃ tr2, processTiers env req (determine_approvers req.total) 0 0 =
            (none, tr2) ∧
          res = { status := "complete", po_number := some env.poNumber,
                  sent_to_vendor := some env.sendPoResult } ∧
          tr = [Act.validate_budget code req.total,
                Act.determine_approvers_call] ++ tr2 ++
               [Act.generate_purchase_order,
                Act.send_po_to_vendor env.poNumber (req.vendor_id.getD "")])) := by
  unfold runWorkflow at h
  rcases hbc : req.budget_code with _ | code
  · rw [hbc] at h
    simp at h
  · rw [hbc] at h
    refine ⟨code, rfl, ?_⟩
    rcases henv : env.budgetAvailable
    · rw [henv] at h
      simp only [Bool.false_eq_true, if_false, Except.ok.injEq,
        Prod.mk.injEq] at h
      rcases h with ⟨rfl, rfl⟩
      exact Or.inl ⟨rfl, rfl, rfl⟩
    · rw [henv] at h
      simp only [if_true] at h
      by_cases he : (determine_approvers req.total).isEmpty = true
      · have hch := List.isEmpty_iff.mp he
        rw [he] at h
        simp only [if_true, Except.ok.injEq, Prod.mk.injEq] at h
        rcases h with ⟨rfl, rfl⟩
        exact Or.inr (Or.inl ⟨rfl, hch, rfl, rfl⟩)
      · have hne : determine_approvers req.total ≠ [] := by
          intro h0
          exact he (by simp [h0])
        have he' : (determine_approvers req.total).isEmpty = false := by
          rcases hie : (determine_approvers req.total).isEmpty
          · rfl
          · exact absurd hie he
        rw [he'] at h
        simp only [Bool.false_eq_true, if_false] at h
        split at h
        · rename_i res0 tr2 heq
          simp only [Except.ok.injEq, Prod.mk.injEq] at h
          rcases h with ⟨rfl, rfl⟩
          exact Or.inr (Or.inr (Or.inl ⟨rfl, hne, res0, tr2, heq, rfl, rfl⟩))
        · rename_i tr2 heq
          simp only [Except.ok.injEq, Prod.mk.injEq] at h
          rcases h with ⟨rfl, rfl⟩
          exact Or.inr (Or.inr (Or.inr ⟨rfl, hne, tr2, heq, rfl, rfl⟩))

theorem notifs_run_lead (code : String) (q : ℚ) (tr2 : List Act) :
    notifs ([Act.validate_budget code q, Act.determine_approvers_call] ++ tr2) =
      notifs tr2 := by
  rw [notifs_append]
  rfl

theorem escalations_run_lead (code : String) (q : ℚ) (tr2 : List Act) :
    escalations ([Act.validate_budget code q,
      Act.determine_approvers_call] ++ tr2) = escalations tr2 := by
  rw [escalations_append]
  rfl

theorem tierWaits_run_lead (code : String) (q : ℚ) (tr2 : List Act) :
    tierWaits ([Act.validate_budget code q,
      Act.determine_approvers_call] ++ tr2) = tierWaits tr2 := by
  rw [tierWaits_append]
  rfl

/-- C4: when a run terminates rejected with an approver attached, the
rejection was observed for some tier i of the chain during its
pre-deadline poll loop; the result carries that tier's approver and a
reason, the notified tiers are exactly tiers 1..i, and in particular no
tier after i (none of higher level or different approver) was ever sent
a notification. -/
theorem rejection_stops_run (req : Requisition) (env : WfEnv)
    (res : RunResult) (tr : List Act) (aid : String)
    (h : runWorkflow req env = Except.ok (res, tr))
    (hst : res.status = "rejected") (hapr : res.approver = some aid) :
    ∃ i, ∃ hi : i < (determine_approvers req.total).length,
      ((determine_approvers req.total).get ⟨i, hi⟩).approver_id = aid ∧
      res.reason.isSome ∧
      notifs tr = (((determine_approvers req.total).take (i+1)).map
        fun a => (a.level, a.approver_id)) ∧
      ∀ j, ∀ hj : j < (determine_approvers req.total).length, i < j →
        (((determine_approvers req.total).get ⟨j, hj⟩).level,
          ((determine_approvers req.total).get ⟨j, hj⟩).approver_id) ∉
          notifs tr := by
  rcases runWorkflow_ok_shape req env res tr h with
    ⟨code, hbc, hcase | hcase | hcase | hcase⟩
  · rcases hcase with ⟨_, hres, _⟩
    rw [hres] at hapr
    simp at hapr
  · rcases hcase with ⟨_, _, hres, _⟩
    rw [hres] at hst
    simp at hst
  · rcases hcase with ⟨_, _, res0, tr2, heq, hres0, htr⟩
    subst htr
    subst hres0
    rcases processTiers_some_spec env req (determine_approvers req.total)
      0 0 res tr2 heq with ⟨i, hi, h1, _, _, h4, _⟩
    rcases h4 hst with ⟨hap0, hrs⟩
    have haid : ((determine_approvers req.total).get ⟨i, hi⟩).approver_id =
        aid := (Option.some.inj (hapr.symm.trans hap0)).symm
    have hnotr : notifs ([Act.validate_budget code req.total,
        Act.determine_approvers_call] ++ tr2) = notifs tr2 :=
      notifs_run_lead code req.total tr2
    refine ⟨i, hi, haid, hrs, by rw [hnotr, h1], ?_⟩
    intro j hj hij hmem
    rw [hnotr, h1] at hmem
    obtain ⟨a, hamem, haeq⟩ := List.mem_map.mp hmem
    have hlev : a.level = ((determine_approvers req.total).get ⟨j, hj⟩).level := by
      have := congrArg Prod.fst haeq
      simpa using this
    obtain ⟨m, hm, hma⟩ := List.getElem_of_mem hamem
    have hmlt : m < i + 1 := by
      have h0 := hm
      rw [List.length_take] at h0
      omega
    have hmlen : m < (determine_approvers req.total).length := by
      omega
    have hma2 : (determine_approvers req.total).get ⟨m, hmlen⟩ = a := by
      rw [List.get_eq_getElem]
      rw [← hma, List.getElem_take]
    have hpair := List.pairwise_iff_getElem.mp
      (chain_levels_increasing req.total) m j hmlen hj (by omega)
    rw [List.get_eq_getElem] at hma2 hlev
    rw [← hma2] at hlev
    simp only [List.get_eq_getElem] at hlev
    omega
  · rcases hcase with ⟨_, _, tr2, _, hres, _⟩
    rw [hres] at hst
    simp at hst

/-- C4 witness: the rejection theorem applied to a one-tier rush
requisition whose first status inspection is a rejection. -/
theorem rejection_stops_run_witness :
    ∃ i, ∃ hi : i < (determine_approvers req600.total).length,
      ((determine_approvers req600.total).get ⟨i, hi⟩).approver_id =
        "manager_001" ∧
      ({ status := "rejected", reason := some "over budget",
         approver := some "manager_001" } : RunResult).reason.isSome ∧
      notifs [Act.validate_budget "BUD-1" 600, Act.determine_approvers_call,
        Act.send_approval_notification 1 "manager_001", Act.tierWait 1 0 480,
        Act.check_approval_status 0] =
        (((determine_approvers req600.total).take (i+1)).map
          fun a => (a.level, a.approver_id)) ∧
      ∀ j, ∀ hj : j < (determine_approvers req600.total).length, i < j →
        (((determine_approvers req600.total).get ⟨j, hj⟩).level,
          ((determine_approvers req600.total).get ⟨j, hj⟩).approver_id) ∉
          notifs [Act.validate_budget "BUD-1" 600, Act.determine_approvers_call,
            Act.send_approval_notification 1 "manager_001", Act.tierWait 1 0 480,
            Act.check_approval_status 0] :=
  rejection_stops_run req600 envRejectFirst
    { status := "rejected", reason := some "over budget",
      approver := some "manager_001" }
    [Act.validate_budget "BUD-1" 600, Act.determine_approvers_call,
     Act.send_approval_notification 1 "manager_001", Act.tierWait 1 0 480,
     Act.check_approval_status 0]
    "manager_001" rfl rfl rfl

/-- C3 counterexample: two runs that time out at different tiers (the
escalation events show tier 1 versus tier 2) return identical terminal
results — the escalated_timeout result does not carry the tier. -/
theorem escalated_result_does_not_carry_tier :
    runResultOf req600 stubEnv = some escalatedTimeoutResult ∧
    runResultOf req6000 envApproveCallZero = some escalatedTimeoutResult ∧
    runEscalationsOf req600 stubEnv = some [1] ∧
    runEscalationsOf req6000 envApproveCallZero = some [2] :=
  ⟨rfl, rfl, rfl, rfl⟩

/-- C3 amended: a run that terminates escalated_timeout timed out at
some tier i: that tier escalated exactly once, the run then slept the
fixed 4-hour grace period and made one final status check, with which
the trace ends — no later tier was processed and the notified tiers are
exactly 1..i; each tier escalates at most once along the run; the
terminal result carries only a fixed details message, not the tier. -/
theorem timeout_escalates_once_then_grace (req : Requisition) (env : WfEnv)
    (res : RunResult) (tr : List Act)
    (h : runWorkflow req env = Except.ok (res, tr))
    (hst : res.status = "escalated_timeout") :
    res.details = some "Approval not received after escalation" ∧
    ∃ i, ∃ hi : i < (determine_approvers req.total).length, ∃ trPre t,
      tr = trPre ++ [Act.escalate_approval
          ((determine_approvers req.total).get ⟨i, hi⟩).level,
        Act.sleep 240, Act.check_approval_status t] ∧
      List.Sublist (escalations tr)
        (((determine_approvers req.total).take (i+1)).map fun a => a.level) ∧
      notifs tr = (((determine_approvers req.total).take (i+1)).map
        fun a => (a.level, a.approver_id)) := by
  rcases runWorkflow_ok_shape req env res tr h with
    ⟨code, hbc, hcase | hcase | hcase | hcase⟩
  · rcases hcase with ⟨_, hres, _⟩
    rw [hres] at hst
    simp at hst
  · rcases hcase with ⟨_, _, hres, _⟩
    rw [hres] at hst
    simp at hst
  · rcases hcase with ⟨_, _, res0, tr2, heq, hres0, htr⟩
    subst htr
    subst hres0
    rcases processTiers_some_spec env req (determine_approvers req.total)
      0 0 res tr2 heq with ⟨i, hi, h1, h2, _, _, h5⟩
    rcases h5 hst with ⟨hd, trPre, t, htr2⟩
    refine ⟨hd, i, hi, [Act.validate_budget code req.total,
      Act.determine_approvers_call] ++ trPre, t, ?_, ?_, ?_⟩
    · rw [htr2, List.append_assoc]
    · rw [escalations_run_lead]
      exact h2
    · rw [notifs_run_lead]
      exact h1
  · rcases hcase with ⟨_, _, tr2, _, hres, _⟩
    rw [hres] at hst
    simp at hst

/-- C3 witness: the escalation theorem applied to the run of the
one-tier rush requisition against the forever-pending environment. -/
theorem timeout_escalates_once_then_grace_witness :
    escPair.1.details = some "Approval not received after escalation" ∧
    ∃ i, ∃ hi : i < (determine_approvers req600.total).length, ∃ trPre t,
      escPair.2 = trPre ++ [Act.escalate_approval
          ((determine_approvers req600.total).get ⟨i, hi⟩).level,
        Act.sleep 240, Act.check_approval_status t] ∧
      List.Sublist (escalations escPair.2)
        (((determine_approvers req600.total).take (i+1)).map fun a => a.level) ∧
      notifs escPair.2 = (((determine_approvers req600.total).take (i+1)).map
        fun a => (a.level, a.approver_id)) :=
  timeout_escalates_once_then_grace req600 stubEnv escPair.1 escPair.2 rfl rfl

/-- C5 counterexample: in a two-tier rush run whose first tier consumes
15 minutes, the second tier waits with deadline 495 = 15 + 480 — not
480 = run start + SLA: per-tier deadlines are computed from the tier
wait start, not from the run start time. -/
theorem tier_deadline_not_run_start :
    runWorkflow req6000 envApproveFromCallOne = Except.ok
      ({ status := "complete", po_number := some "PO-0001",
         sent_to_vendor := some true }, trRushTwoTier) ∧
    Act.tierWait 2 15 495 ∈ trRushTwoTier ∧
    (495 : ℕ) ≠ 0 + slaHours req6000.urgency * 60 :=
  ⟨rfl, by decide, by decide⟩

/-- C5 amended: in every run, each tier wait has deadline equal to that
tier's wait start plus the urgency SLA (48 hours for standard, 8 for
rush, emergency and anything else); the first tier's wait starts at the
run start (time 0). -/
theorem tier_deadline_from_wait_start (req : Requisition) (env : WfEnv)
    (res : RunResult) (tr : List Act)
    (h : runWorkflow req env = Except.ok (res, tr)) :
    slaHours "standard" = 48 ∧ slaHours "rush" = 8 ∧
    slaHours "emergency" = 8 ∧
    (∀ lvl s d, (lvl, s, d) ∈ tierWaits tr →
      d = s + slaHours req.urgency * 60) ∧
    (∀ lvl s d, (tierWaits tr).head? = some (lvl, s, d) → s = 0) := by
  have key : (∀ lvl s d, (lvl, s, d) ∈ tierWaits tr →
      d = s + slaHours req.urgency * 60) ∧
      (∀ lvl s d, (tierWaits tr).head? = some (lvl, s, d) → s = 0) := by
    rcases runWorkflow_ok_shape req env res tr h with
      ⟨code, hbc, hcase | hcase | hcase | hcase⟩
    · rcases hcase with ⟨_, _, htr⟩
      subst htr
      constructor
      · intro lvl s d hmem
        simp [tierWaits] at hmem
      · intro lvl s d hh
        simp [tierWaits] at hh
    · rcases hcase with ⟨_, _, _, htr⟩
      subst htr
      constructor
      · intro lvl s d hmem
        simp [tierWaits] at hmem
      · intro lvl s d hh
        simp [tierWaits] at hh
    · rcases hcase with ⟨_, hne, res0, tr2, heq, hres0, htr⟩
      subst htr
      constructor
      · intro lvl s d hmem
        rw [tierWaits_run_lead] at hmem
        have h0 := processTiers_tierWaits env req
          (determine_approvers req.total) 0 0 lvl s d
        rw [heq] at h0
        exact h0 hmem
      · intro lvl s d hh
        rw [tierWaits_run_lead] at hh
        rcases hch : determine_approvers req.total with _ | ⟨ap, rest⟩
        · exact absurd hch hne
        · rcases processTiers_head_tierWait env req ap rest 0 0 with
            ⟨restW, h0⟩
          rw [hch] at heq
          rw [heq] at h0
          rw [h0] at hh
          simp only [List.head?_cons, Option.some.injEq, Prod.mk.injEq] at hh
          omega
    · rcases hcase with ⟨_, hne, tr2, heq, hres, htr⟩
      subst htr
      have hW : tierWaits ([Act.validate_budget code req.total,
          Act.determine_approvers_call] ++ tr2 ++
          [Act.generate_purchase_order,
           Act.send_po_to_vendor env.poNumber (req.vendor_id.getD "")]) =
          tierWaits tr2 := by
        rw [tierWaits_append, tierWaits_run_lead]
        simp [tierWaits]
      constructor
      · intro lvl s d hmem
        rw [hW] at hmem
        have h0 := processTiers_tierWaits env req
          (determine_approvers req.total) 0 0 lvl s d
        rw [heq] at h0
        exact h0 hmem
      · intro lvl s d hh
        rw [hW] at hh
        rcases hch : determine_approvers req.total with _ | ⟨ap, rest⟩
        · exact absurd hch hne
        · rcases processTiers_head_tierWait env req ap rest 0 0 with
            ⟨restW, h0⟩
          rw [hch] at heq
          rw [heq] at h0
          rw [h0] at hh
          simp only [List.head?_cons, Option.some.injEq, Prod.mk.injEq] at hh
          omega
  exact ⟨by decide, by decide, by decide, key.1, key.2⟩

/-- C5 witness: the deadline theorem applied to the completed two-tier
rush run, instantiated at its two tier waits. -/
theorem tier_deadline_from_wait_start_witness :
    495 = 15 + slaHours req6000.urgency * 60 ∧
    480 = 0 + slaHours req6000.urgency * 60 :=
  ⟨(tier_deadline_from_wait_start req6000 envApproveFromCallOne
      { status := "complete", po_number := some "PO-0001",
        sent_to_vendor := some true } trRushTwoTier rfl).2.2.2.1
      2 15 495 (by decide),
   (tier_deadline_from_wait_start req6000 envApproveFromCallOne
      { status := "complete", po_number := some "PO-0001",
        sent_to_vendor := some true } trRushTwoTier rfl).2.2.2.1
      1 0 480 (by decide)⟩

/-- C7: the invoice run with no matching PO terminates no_po_match
flagged for manual review, with a trace that stops after PO matching —
no line matching, price validation, receipt verification or
approve/except decision; with a PO found, the run is approved iff all
three checks pass, and otherwise terminates exception with a record
aggregating the three issue lists. -/
theorem invoice_three_way_match (iid : String) (env : InvEnv) :
    (env.poFound = false →
      runInvoice iid env =
        ({ status := "no_po_match", invoice_id := some iid,
           requires_manual_review := some true },
         [InvAct.parse_invoice, InvAct.find_matching_po])) ∧
    (env.poFound = true →
      ((runInvoice iid env).1.status = "approved" ↔
        (env.allMatched && env.allValid && env.allReceived) = true) ∧
      ((env.allMatched && env.allValid && env.allReceived) = false →
        (runInvoice iid env).1 =
          { status := "exception", exception_id := some env.exceptionId,
            issues := some (env.mismatches, env.violations,
              env.receiptIssues) } ∧
        InvAct.create_exception ∈ (runInvoice iid env).2 ∧
        InvAct.approve_invoice ∉ (runInvoice iid env).2)) := by
  constructor
  · intro hpo
    simp [runInvoice, hpo]
  · intro hpo
    by_cases hall : (env.allMatched && env.allValid && env.allReceived) = true
    · constructor
      · simp [runInvoice, hpo, hall]
      · intro hfalse
        rw [hall] at hfalse
        exact absurd hfalse (by decide)
    · have hfalse : (env.allMatched && env.allValid && env.allReceived) =
          false := by
        rcases hb : (env.allMatched && env.allValid && env.allReceived)
        · rfl
        · exact absurd hb hall
      constructor
      · simp [runInvoice, hpo, hfalse]
      · intro _
        refine ⟨?_, ?_, ?_⟩ <;> simp [runInvoice, hpo, hfalse]

/-- C7 witness: both branches at concrete environments — first an
invoice with no matching PO, then one whose receipt check fails. -/
theorem invoice_three_way_match_witness :
    runInvoice "INV-88" ⟨false, true, [], true, [], true, [], "EXC-1"⟩ =
      ({ status := "no_po_match", invoice_id := some "INV-88",
         requires_manual_review := some true },
       [InvAct.parse_invoice, InvAct.find_matching_po]) ∧
    ((runInvoice "INV-89" ⟨true, true, [], true, [], false, ["missing box"],
        "EXC-2"⟩).1.status = "approved" ↔
      (true && true && false) = true) :=
  ⟨(invoice_three_way_match "INV-88"
      ⟨false, true, [], true, [], true, [], "EXC-1"⟩).1 rfl,
   ((invoice_three_way_match "INV-89"
      ⟨true, true, [], true, [], false, ["missing box"], "EXC-2"⟩).2 rfl).1⟩

end Talos
